import Mathlib

/-!
Shallow embedding of the flight-control core in `src/drone_controller.py`
(class `DroneController`).

Modelling conventions:
* `time.time()` reads are passed in explicitly as a rational `now`; all the
  float constants of the source (3.0, 0.5, 5.0, 1.0, 3.0, 50) are exact
  dyadic values, so rationals model the arithmetic exactly.
* Python `int(x)` truncates toward zero; `pyInt` is its rational analogue.
* A call on the vendor link (`self.tello.…`) can raise; each operation that
  makes such a call takes a `Bool` flag (`linkOk`, `landOk`, …) telling
  whether the call succeeds.  The calls *attempted* on the link are returned
  as a `List LinkCall` so that theorems can observe which primitives were
  invoked.
* `self.tello` being `None` is the field `hasTello = false`.
* The deferred one-shot background tasks (the IMU-ready timer started by
  `takeoff`, and the pulse-zeroing timer of `execute_rc_movement`) are
  modelled as separate functions on the state (`notify_imu_ready`); their
  firing time is `takeoff_time + imu_stabilization_delay` resp. 0.3/0.4 s
  after the pulse.
-/

/-- `ConnectionStatus` enum of the source. -/
inductive ConnectionStatus
  | DISCONNECTED
  | CONNECTING
  | CONNECTED
  | ERROR
deriving DecidableEq, Repr

/-- The eight discrete movement primitives routed through
`execute_movement_command`. -/
inductive MoveCmd
  | forward
  | back
  | left
  | right
  | up
  | down
  | rotate_cw
  | rotate_ccw
deriving DecidableEq, Repr

/-- The `current_rc_values` dictionary of the source. -/
structure RCValues where
  left_right : ℤ
  forward_back : ℤ
  up_down : ℤ
  yaw : ℤ
deriving DecidableEq, Repr

def RCValues.zero : RCValues := ⟨0, 0, 0, 0⟩

/-- A call attempted on the vendor link (`self.tello`). -/
inductive LinkCall
  | discrete (cmd : MoveCmd) (mag : ℤ)
  | rc (lr fb ud yaw : ℤ)
  | takeoffCall
  | landCall
  | flipCall
  | endCall
deriving DecidableEq, Repr

/-- Whether a link call is one of the discrete movement primitives. -/
def LinkCall.isDiscrete : LinkCall → Bool
  | .discrete _ _ => true
  | _ => false

/-- The mutable fields of `DroneController` (threading handles and the audio
flag are omitted: no claim depends on them). -/
structure DroneState where
  hasTello : Bool
  connection_status : ConnectionStatus
  battery_level : ℤ
  height : ℤ
  flight_time : ℤ
  is_flying : Bool
  imu_ready : Bool
  takeoff_time : ℚ
  last_command_time : ℚ
  command_queue : List ℕ
  speed_multiplier : ℚ
  last_ready_beep : ℚ
  rc_mode_active : Bool
  rc_stop_event : Bool
  current_rc_values : RCValues
deriving DecidableEq, Repr

/-- `self.imu_stabilization_delay = 3.0`; set in `__init__`, never
reassigned. -/
def imu_stabilization_delay : ℚ := 3

/-- `self.command_cooldown = 0.5`; set in `__init__`, never reassigned. -/
def command_cooldown : ℚ := 1 / 2

/-- `self.ready_beep_interval = 5.0`; set in `__init__`, never reassigned. -/
def ready_beep_interval : ℚ := 5

/-- The state built by `DroneController.__init__`. -/
def initState : DroneState where
  hasTello := false
  connection_status := .DISCONNECTED
  battery_level := 0
  height := 0
  flight_time := 0
  is_flying := false
  imu_ready := false
  takeoff_time := 0
  last_command_time := 0
  command_queue := []
  speed_multiplier := 1
  last_ready_beep := 0
  rc_mode_active := false
  rc_stop_event := false
  current_rc_values := RCValues.zero

/-- Python `int(q)`: truncation toward zero.  For a rational in lowest terms
this is the T-division of the numerator by the denominator. -/
def pyInt (q : ℚ) : ℤ := q.num.tdiv (q.den : ℤ)

/-- `can_execute_command` (lines 156-162): returns whether the cooldown has
elapsed and, when it has, stamps the current time as `last_command_time`. -/
def can_execute_command (s : DroneState) (now : ℚ) : Bool × DroneState :=
  if command_cooldown ≤ now - s.last_command_time then
    (true, { s with last_command_time := now })
  else
    (false, s)

/-- `execute_command` (lines 164-179): guarded by a non-`None` link, a
`CONNECTED` status and the cooldown check; `call` is the primitive bound to
`command_func` and `linkOk` tells whether invoking it raises. -/
def execute_command (s : DroneState) (now : ℚ) (call : LinkCall) (linkOk : Bool) :
    Bool × DroneState × List LinkCall :=
  if s.hasTello = true ∧ s.connection_status = .CONNECTED then
    match can_execute_command s now with
    | (true, s1) => (linkOk, s1, [call])
    | (false, s1) => (false, s1, [])
  else
    (false, s, [])

/-- `check_imu_ready` (lines 181-190): `false` when not flying; otherwise
lazily promotes `imu_ready` once the stabilization delay has elapsed and
returns the (possibly promoted) flag. -/
def check_imu_ready (s : DroneState) (now : ℚ) : Bool × DroneState :=
  if s.is_flying = false then
    (false, s)
  else
    let s1 :=
      if imu_stabilization_delay ≤ now - s.takeoff_time then
        { s with imu_ready := true }
      else s
    (s1.imu_ready, s1)

/-- The `send_rc_control` pulse that `execute_rc_movement` (lines 230-254)
issues for each discrete primitive: one continuous axis at `±v`. -/
def rc_call_for (cmd : MoveCmd) (v : ℤ) : LinkCall :=
  match cmd with
  | .forward => .rc 0 v 0 0
  | .back => .rc 0 (-v) 0 0
  | .left => .rc (-v) 0 0 0
  | .right => .rc v 0 0 0
  | .up => .rc 0 0 v 0
  | .down => .rc 0 0 (-v) 0
  | .rotate_cw => .rc 0 0 0 v
  | .rotate_ccw => .rc 0 0 0 (-v)

/-- `execute_rc_movement` (lines 217-262): fallback used during the IMU
stabilization window.  Sends a single RC pulse at
`min(int(50 * speed_multiplier), 100)` on the axis of the requested
primitive; a deferred timer (0.3 s, 0.4 s when boosted) later zeroes the
axis.  If `send_rc_control` raises (`linkOk = false`) the exception is
caught and `False` returned. -/
def execute_rc_movement (s : DroneState) (cmd : MoveCmd) (linkOk : Bool) :
    Bool × DroneState × List LinkCall :=
  if s.hasTello = true ∧ s.connection_status = .CONNECTED then
    let rc_speed := min (pyInt (50 * s.speed_multiplier)) 100
    (linkOk, s, [rc_call_for cmd rc_speed])
  else
    (false, s, [])

/-- `execute_movement_command` (lines 192-215): reject when not flying;
route to the RC fallback while the IMU is not ready; otherwise scale the
base magnitude by the speed multiplier (truncated to int) and dispatch the
discrete primitive through `execute_command`. -/
def execute_movement_command (s : DroneState) (now : ℚ) (cmd : MoveCmd)
    (baseMag : ℤ) (linkOk : Bool) : Bool × DroneState × List LinkCall :=
  if s.is_flying = false then
    (false, s, [])
  else
    match check_imu_ready s now with
    | (false, s1) => execute_rc_movement s1 cmd linkOk
    | (true, s1) =>
      let mag := pyInt ((baseMag : ℚ) * s1.speed_multiplier)
      execute_command s1 now (.discrete cmd mag) linkOk

/-- Body of the deferred `notify_imu_ready` task started by `takeoff`
(lines 279-285): after sleeping for the stabilization delay it sets
`imu_ready` only if still flying. -/
def notify_imu_ready (s : DroneState) : DroneState :=
  if s.is_flying = true then { s with imu_ready := true } else s

/-- `takeoff` (lines 264-287): no-op when already flying; on successful
dispatch of the takeoff primitive sets `is_flying`, clears `imu_ready` and
stamps `takeoff_time`. -/
def takeoff (s : DroneState) (now : ℚ) (linkOk : Bool) :
    DroneState × List LinkCall :=
  if s.is_flying = true then
    (s, [])
  else
    match execute_command s now .takeoffCall linkOk with
    | (true, s1, calls) =>
      ({ s1 with is_flying := true, imu_ready := false, takeoff_time := now }, calls)
    | (false, s1, calls) => (s1, calls)

/-- `land` (lines 289-301): no-op when already grounded; on successful
dispatch clears `is_flying` and `imu_ready`. -/
def land (s : DroneState) (now : ℚ) (linkOk : Bool) :
    DroneState × List LinkCall :=
  if s.is_flying = false then
    (s, [])
  else
    match execute_command s now .landCall linkOk with
    | (true, s1, calls) => ({ s1 with is_flying := false, imu_ready := false }, calls)
    | (false, s1, calls) => (s1, calls)

/-- `flip_forward` (lines 335-346): requires flying and `imu_ready`, with no
fallback; only then dispatches the flip through `execute_command`. -/
def flip_forward (s : DroneState) (now : ℚ) (linkOk : Bool) :
    Bool × DroneState × List LinkCall :=
  if s.is_flying = false then
    (false, s, [])
  else if s.imu_ready = false then
    (false, s, [])
  else
    execute_command s now .flipCall linkOk

/-- `check_ready_beep` (lines 140-154): beeps and stamps `last_ready_beep`
when flying, IMU ready, queue empty and the beep interval has elapsed. -/
def check_ready_beep (s : DroneState) (now : ℚ) : DroneState :=
  if s.is_flying = true ∧ s.imu_ready = true ∧ s.command_queue.length = 0 ∧
      ready_beep_interval ≤ now - s.last_ready_beep then
    { s with last_ready_beep := now }
  else s

/-- `update_telemetry` (lines 89-101): when connected, reads battery, height
and flight time in order (each read may raise, aborting the rest — the
exception is swallowed) and finally runs the ready-beep check. -/
def update_telemetry (s : DroneState) (now : ℚ) (batV htV ftV : ℤ)
    (okBat okHt okFt : Bool) : DroneState :=
  if s.hasTello = true ∧ s.connection_status = .CONNECTED then
    if okBat = true then
      let s1 := { s with battery_level := batV }
      if okHt = true then
        let s2 := { s1 with height := htV }
        if okFt = true then
          check_ready_beep { s2 with flight_time := ftV } now
        else s2
      else s1
    else s
  else s

/-- `connect` (lines 50-71): sets `CONNECTING`, creates the link object,
invokes its connect primitive; on success becomes `CONNECTED` and refreshes
telemetry, on failure becomes `ERROR` (the link object stays assigned). -/
def connect (s : DroneState) (now : ℚ) (linkOk : Bool) (batV htV ftV : ℤ)
    (okBat okHt okFt : Bool) : Bool × DroneState :=
  if linkOk = true then
    let s1 := { s with hasTello := true, connection_status := .CONNECTED }
    (true, update_telemetry s1 now batV htV ftV okBat okHt okFt)
  else
    (false, { s with hasTello := true, connection_status := .ERROR })

/-- `stop_rc_mode` (lines 369-384): deactivates RC mode, best-effort sends a
zero vector when connected (failure swallowed), resets the stored vector. -/
def stop_rc_mode (s : DroneState) : DroneState × List LinkCall :=
  if s.rc_mode_active = true then
    let calls :=
      if s.hasTello = true ∧ s.connection_status = .CONNECTED then
        [LinkCall.rc 0 0 0 0]
      else []
    let s1 : DroneState :=
      { s with rc_mode_active := false, rc_stop_event := true,
               current_rc_values := RCValues.zero }
    (s1, calls)
  else
    (s, [])

/-- `start_rc_mode` (lines 357-367): activates only when not already active,
the link exists and the status is `CONNECTED`. -/
def start_rc_mode (s : DroneState) : DroneState :=
  if s.rc_mode_active = false ∧ s.hasTello = true ∧
      s.connection_status = .CONNECTED then
    { s with rc_mode_active := true, rc_stop_event := false }
  else s

/-- `disconnect` (lines 73-87): stops RC mode if active, best-effort lands
if flying and releases the link (`landOk = false` means `tello.land()`
raised, so `tello.end()` is skipped; the exception is swallowed either
way), then always ends `DISCONNECTED` with the link cleared. -/
def disconnect (s : DroneState) (landOk : Bool) : DroneState × List LinkCall :=
  let p := if s.rc_mode_active = true then stop_rc_mode s else (s, [])
  let s1 := p.1
  let teardown :=
    if s1.hasTello = true then
      if s1.is_flying = true then
        if landOk = true then [LinkCall.landCall, LinkCall.endCall]
        else [LinkCall.landCall]
      else [LinkCall.endCall]
    else []
  ({ s1 with connection_status := .DISCONNECTED, hasTello := false },
    p.2 ++ teardown)

/-- `set_speed_multiplier` (lines 103-109): unvalidated state set. -/
def set_speed_multiplier (s : DroneState) (m : ℚ) : DroneState :=
  { s with speed_multiplier := m }

/-- What `clear_command_queue` reports: either the `Cleared {n} queued
commands` message or the distinct `No commands to clear` message. -/
inductive ClearReport
  | cleared (n : ℕ)
  | nothingToClear
deriving DecidableEq, Repr

/-- `clear_command_queue` (lines 111-118): when the queue is non-empty it is
cleared first and the printed count is `len(self.command_queue)` measured
AFTER the clear; an empty queue gets the distinct message. -/
def clear_command_queue (s : DroneState) : DroneState × ClearReport :=
  if 0 < s.command_queue.length then
    let s1 := { s with command_queue := [] }
    (s1, ClearReport.cleared s1.command_queue.length)
  else
    (s, ClearReport.nothingToClear)

/-- `emergency_stop` (lines 348-355): best-effort zero vector whenever the
link exists and is connected, bypassing throttle and flight-state checks. -/
def emergency_stop (s : DroneState) : DroneState × List LinkCall :=
  if s.hasTello = true ∧ s.connection_status = .CONNECTED then
    (s, [LinkCall.rc 0 0 0 0])
  else (s, [])

/-- The set of held keys that `calculate_rc_values` (lines 386-423)
inspects: membership of `pygame.K_a/d/w/s/i/k/q/e` in `active_keys`. -/
structure ActiveKeys where
  k_a : Bool
  k_d : Bool
  k_w : Bool
  k_s : Bool
  k_i : Bool
  k_k : Bool
  k_q : Bool
  k_e : Bool
deriving DecidableEq, Repr

/-- `calculate_rc_values` (lines 386-423): each held key contributes
`±min(int(50 * speed_multiplier), 100)` to its axis, accumulated
independently. -/
def calculate_rc_values (s : DroneState) (keys : ActiveKeys) : RCValues :=
  let rc_speed := min (pyInt (50 * s.speed_multiplier)) 100
  { left_right :=
      (if keys.k_a = true then -rc_speed else 0) +
      (if keys.k_d = true then rc_speed else 0)
    forward_back :=
      (if keys.k_w = true then rc_speed else 0) +
      (if keys.k_s = true then -rc_speed else 0)
    up_down :=
      (if keys.k_i = true then rc_speed else 0) +
      (if keys.k_k = true then -rc_speed else 0)
    yaw :=
      (if keys.k_q = true then -rc_speed else 0) +
      (if keys.k_e = true then rc_speed else 0) }

/-- `update_rc_control` (lines 425-463): no-op unless RC mode is active and
the link is connected; computes the new vector and, when it differs from
`current_rc_values`, stores it and then attempts `send_rc_control` —
`linkOk = false` means the send raised, which is caught and only logged
(note the store happens before the `try`). -/
def update_rc_control (s : DroneState) (keys : ActiveKeys) (_linkOk : Bool) :
    DroneState × List LinkCall :=
  if s.rc_mode_active = true ∧ s.hasTello = true ∧
      s.connection_status = .CONNECTED then
    let nv := calculate_rc_values s keys
    if nv ≠ s.current_rc_values then
      ({ s with current_rc_values := nv },
        [LinkCall.rc nv.left_right nv.forward_back nv.up_down nv.yaw])
    else
      (s, [])
  else
    (s, [])

/-! ### Concrete states and key sets used by witnesses and counterexamples -/

/-- Only the forward key (`W`) held. -/
def keysForwardOnly : ActiveKeys := ⟨false, false, true, false, false, false, false, false⟩

/-- Only the left key (`A`) held. -/
def keysLeftOnly : ActiveKeys := ⟨true, false, false, false, false, false, false, false⟩

/-- Both the left (`A`) and right (`D`) keys held. -/
def keysLeftRight : ActiveKeys := ⟨true, true, false, false, false, false, false, false⟩

/-- A freshly initialized controller whose queue holds three commands. -/
def queue3State : DroneState := { initState with command_queue := [1, 2, 3] }

/-- A connected controller with RC mode active and a zero stored vector. -/
def rcActiveState : DroneState :=
  { initState with rc_mode_active := true, hasTello := true,
                   connection_status := .CONNECTED }

/-- A connected, grounded controller (after a successful `connect`), with
the clock at 1 so the cooldown since `__init__` has elapsed. -/
def connectedState : DroneState :=
  { initState with hasTello := true, connection_status := .CONNECTED }

/-- A connected controller flying since time 1. -/
def flyingSince1State : DroneState :=
  { initState with hasTello := true, connection_status := .CONNECTED,
                   is_flying := true, takeoff_time := 1 }

/-- A connected controller right after a takeoff stamped at time 100. -/
def flyingFreshState : DroneState :=
  { initState with hasTello := true, connection_status := .CONNECTED,
                   is_flying := true, takeoff_time := 100,
                   last_command_time := 100 }

/-- The state invariant of claim C4: grounded implies IMU not ready. -/
def FlightInv (s : DroneState) : Prop := s.is_flying = false → s.imu_ready = false

/-! ### Helper lemmas -/

lemma pyInt_nonneg {q : ℚ} (h : 0 ≤ q) : 0 ≤ pyInt q := by
  unfold pyInt
  exact Int.tdiv_nonneg (Rat.num_nonneg.mpr h) (Int.ofNat_nonneg _)

lemma rc_speed_bounds {m : ℚ} (h : 0 ≤ m) :
    0 ≤ min (pyInt (50 * m)) 100 ∧ min (pyInt (50 * m)) 100 ≤ 100 :=
  ⟨le_min (pyInt_nonneg (by positivity)) (by norm_num), min_le_right _ _⟩

lemma can_execute_command_frame (s : DroneState) (now : ℚ) :
    (can_execute_command s now).2.is_flying = s.is_flying ∧
    (can_execute_command s now).2.imu_ready = s.imu_ready := by
  unfold can_execute_command
  split_ifs <;> simp

lemma execute_command_frame (s : DroneState) (now : ℚ) (call : LinkCall)
    (linkOk : Bool) :
    (execute_command s now call linkOk).2.1.is_flying = s.is_flying ∧
    (execute_command s now call linkOk).2.1.imu_ready = s.imu_ready := by
  unfold execute_command
  split_ifs with h
  · rcases hce : can_execute_command s now with ⟨b, s1⟩
    have hf := can_execute_command_frame s now
    rw [hce] at hf
    cases b <;> simp_all
  · simp

lemma execute_rc_movement_state (s : DroneState) (cmd : MoveCmd)
    (linkOk : Bool) : (execute_rc_movement s cmd linkOk).2.1 = s := by
  unfold execute_rc_movement
  split_ifs <;> rfl

lemma stop_rc_mode_frame (s : DroneState) :
    (stop_rc_mode s).1.is_flying = s.is_flying ∧
    (stop_rc_mode s).1.imu_ready = s.imu_ready := by
  unfold stop_rc_mode
  split_ifs <;> simp

lemma check_ready_beep_frame (s : DroneState) (now : ℚ) :
    (check_ready_beep s now).is_flying = s.is_flying ∧
    (check_ready_beep s now).imu_ready = s.imu_ready := by
  unfold check_ready_beep
  split_ifs <;> simp

lemma update_telemetry_frame (s : DroneState) (now : ℚ) (batV htV ftV : ℤ)
    (okBat okHt okFt : Bool) :
    (update_telemetry s now batV htV ftV okBat okHt okFt).is_flying = s.is_flying ∧
    (update_telemetry s now batV htV ftV okBat okHt okFt).imu_ready = s.imu_ready := by
  unfold update_telemetry
  split_ifs <;> simp [check_ready_beep_frame]

lemma connect_frame (s : DroneState) (now : ℚ) (linkOk : Bool)
    (batV htV ftV : ℤ) (okBat okHt okFt : Bool) :
    (connect s now linkOk batV htV ftV okBat okHt okFt).2.is_flying = s.is_flying ∧
    (connect s now linkOk batV htV ftV okBat okHt okFt).2.imu_ready = s.imu_ready := by
  unfold connect
  split_ifs with h
  · have hf := update_telemetry_frame
      { s with hasTello := true, connection_status := ConnectionStatus.CONNECTED }
      now batV htV ftV okBat okHt okFt
    simpa using hf
  · simp

lemma disconnect_frame (s : DroneState) (landOk : Bool) :
    (disconnect s landOk).1.connection_status = .DISCONNECTED ∧
    (disconnect s landOk).1.hasTello = false ∧
    (disconnect s landOk).1.is_flying = s.is_flying ∧
    (disconnect s landOk).1.imu_ready = s.imu_ready := by
  unfold disconnect
  by_cases h : s.rc_mode_active = true
  · have hf := stop_rc_mode_frame s
    simp [if_pos h, hf.1, hf.2]
  · simp [if_neg h]

lemma update_rc_control_frame (s : DroneState) (keys : ActiveKeys)
    (linkOk : Bool) :
    (update_rc_control s keys linkOk).1.is_flying = s.is_flying ∧
    (update_rc_control s keys linkOk).1.imu_ready = s.imu_ready := by
  unfold update_rc_control
  refine ⟨?_, ?_⟩ <;>
  · split_ifs with hg
    · by_cases hne : calculate_rc_values s keys ≠ s.current_rc_values
      · simp only [if_pos hne]
      · simp only [if_neg hne]
    · rfl

lemma FlightInv_congr {s s' : DroneState} (hf : s'.is_flying = s.is_flying)
    (hi : s'.imu_ready = s.imu_ready) (h : FlightInv s) : FlightInv s' := by
  intro hnf
  rw [hi]
  exact h (hf ▸ hnf)

lemma check_imu_ready_inv (s : DroneState) (now : ℚ) (h : FlightInv s) :
    FlightInv (check_imu_ready s now).2 := by
  cases hf : s.is_flying
  · simp [check_imu_ready, hf]
    exact h
  · unfold check_imu_ready
    rw [if_neg (by simp [hf])]
    split_ifs with ht
    · intro hnf
      simp [hf] at hnf
    · exact h

/-! ### Claim theorems -/

/-- Claim C1: while flying with the stabilization delay not yet elapsed
(and `imu_ready` still false, as `takeoff` leaves it), any of the eight
movement primitives is routed to `execute_rc_movement`, which sends exactly
one RC pulse on the axis of that primitive and never a discrete call; once
the delay has elapsed, a subsequent call (with the cooldown satisfied)
dispatches the discrete primitive with magnitude
`int(baseMagnitude × speed_multiplier)`. -/
theorem C1_fallback_then_discrete (s : DroneState) (now : ℚ) (cmd : MoveCmd)
    (baseMag : ℤ) (linkOk : Bool) (hfly : s.is_flying = true)
    (ht : s.hasTello = true) (hc : s.connection_status = .CONNECTED) :
    (s.imu_ready = false → now - s.takeoff_time < imu_stabilization_delay →
      (execute_movement_command s now cmd baseMag linkOk).2.2 =
        [rc_call_for cmd (min (pyInt (50 * s.speed_multiplier)) 100)] ∧
      ((execute_movement_command s now cmd baseMag linkOk).2.2.all
        (fun c => c.isDiscrete = false)) = true) ∧
    (imu_stabilization_delay ≤ now - s.takeoff_time →
      command_cooldown ≤ now - s.last_command_time →
      (execute_movement_command s now cmd baseMag linkOk).2.2 =
        [LinkCall.discrete cmd (pyInt ((baseMag : ℚ) * s.speed_multiplier))]) := by
  constructor
  · intro himu hlt
    have hcheck : check_imu_ready s now = (false, s) := by
      simp [check_imu_ready, hfly, himu, not_le.mpr hlt]
    have hres : (execute_movement_command s now cmd baseMag linkOk).2.2 =
        [rc_call_for cmd (min (pyInt (50 * s.speed_multiplier)) 100)] := by
      simp [execute_movement_command, hcheck, execute_rc_movement, hfly, ht, hc]
    refine ⟨hres, ?_⟩
    rw [hres]
    cases cmd <;> simp [rc_call_for, LinkCall.isDiscrete]
  · intro hge hcool
    have hcheck : check_imu_ready s now = (true, { s with imu_ready := true }) := by
      simp [check_imu_ready, hfly, hge]
    simp [execute_movement_command, hcheck, execute_command,
      can_execute_command, hfly, ht, hc, hcool]

/-- Witness for C1: concrete post-takeoff scenario — a `move_forward` at
time 101 (1 s after takeoff) produces the forward RC pulse, and one at
time 104 produces the discrete forward call. -/
theorem C1_fallback_then_discrete_witness :
    (execute_movement_command flyingFreshState 101 .forward 30 true).2.2 =
      [rc_call_for .forward
        (min (pyInt (50 * flyingFreshState.speed_multiplier)) 100)] ∧
    (execute_movement_command flyingFreshState 104 .forward 30 true).2.2 =
      [LinkCall.discrete .forward
        (pyInt (((30 : ℤ) : ℚ) * flyingFreshState.speed_multiplier))] := by
  have h1 := C1_fallback_then_discrete flyingFreshState 101 .forward 30 true
    rfl rfl rfl
  have h2 := C1_fallback_then_discrete flyingFreshState 104 .forward 30 true
    rfl rfl rfl
  exact ⟨(h1.1 rfl (by norm_num [flyingFreshState, initState,
      imu_stabilization_delay])).1,
    h2.2 (by norm_num [flyingFreshState, initState, imu_stabilization_delay])
      (by norm_num [flyingFreshState, initState, command_cooldown])⟩

/-- Claim C2: `can_execute_command` returns true iff at least the 0.5 s
cooldown has elapsed since `last_command_time` (the stamp of the last call
that returned true), stamps the current time exactly when it returns true,
two calls less than 0.5 s apart return true then false, and the window is
reset by attempts: `execute_command` with a failing link call still leaves
the fresh stamp. -/
theorem C2_cooldown (s : DroneState) (t1 t2 now : ℚ) :
    ((can_execute_command s now).1 = true ↔
      command_cooldown ≤ now - s.last_command_time) ∧
    ((can_execute_command s now).1 = true →
      (can_execute_command s now).2.last_command_time = now) ∧
    ((can_execute_command s now).1 = false → (can_execute_command s now).2 = s) ∧
    ((can_execute_command s t1).1 = true → t2 - t1 < command_cooldown →
      (can_execute_command (can_execute_command s t1).2 t2).1 = false) ∧
    (∀ call, s.hasTello = true → s.connection_status = .CONNECTED →
      command_cooldown ≤ now - s.last_command_time →
      (execute_command s now call false).1 = false ∧
      (execute_command s now call false).2.1.last_command_time = now) := by
  refine ⟨?_, ?_, ?_, ?_, ?_⟩
  · unfold can_execute_command
    split_ifs with h <;> simp [h]
  · unfold can_execute_command
    split_ifs with h <;> simp
  · unfold can_execute_command
    split_ifs with h <;> simp
  · intro h1 h2
    have ha : command_cooldown ≤ t1 - s.last_command_time := by
      by_contra hno
      unfold can_execute_command at h1
      rw [if_neg hno] at h1
      simp at h1
    have hsnd : (can_execute_command s t1).2 =
        { s with last_command_time := t1 } := by
      unfold can_execute_command
      rw [if_pos ha]
    rw [hsnd]
    simp [can_execute_command, not_le.mpr h2]
  · intro call ht hc hcool
    simp [execute_command, can_execute_command, ht, hc, hcool]

/-- Witness for C2: on a fresh controller, a check at time 1 passes and a
second check 0.3 s later fails. -/
theorem C2_cooldown_witness :
    (can_execute_command initState 1).1 = true ∧
    (can_execute_command (can_execute_command initState 1).2 (13/10)).1 = false := by
  have h := C2_cooldown initState 1 (13/10) 1
  have h1 : (can_execute_command initState 1).1 = true :=
    h.1.mpr (by norm_num [initState, command_cooldown])
  exact ⟨h1, h.2.2.2.1 h1 (by norm_num [command_cooldown])⟩

/-- Claim C3: a successful `takeoff` leaves `imu_ready` false and stamps
`takeoff_time = now`; once flying with the 3 s delay elapsed,
`check_imu_ready` (or the deferred task body) promotes `imu_ready` to true
and returns true; `check_imu_ready` returns false whenever not flying. -/
theorem C3_imu_stabilization (s : DroneState) (now t : ℚ)
    (hnf : s.is_flying = false) (ht : s.hasTello = true)
    (hc : s.connection_status = .CONNECTED)
    (hcool : command_cooldown ≤ now - s.last_command_time) :
    ((takeoff s now true).1.is_flying = true ∧
      (takeoff s now true).1.imu_ready = false ∧
      (takeoff s now true).1.takeoff_time = now) ∧
    (∀ s', s'.is_flying = true →
      imu_stabilization_delay ≤ t - s'.takeoff_time →
      (check_imu_ready s' t).1 = true ∧
      (check_imu_ready s' t).2.imu_ready = true) ∧
    (∀ s', s'.is_flying = true → (notify_imu_ready s').imu_ready = true) ∧
    (∀ s', s'.is_flying = false → (check_imu_ready s' t).1 = false) := by
  refine ⟨?_, ?_, ?_, ?_⟩
  · simp [takeoff, execute_command, can_execute_command, hnf, ht, hc, hcool]
  · intro s' hf hge
    simp [check_imu_ready, hf, hge]
  · intro s' hf
    simp [notify_imu_ready, hf]
  · intro s' hnf'
    simp [check_imu_ready, hnf']

/-- Witness for C3: a takeoff at time 1 on a connected grounded controller
leaves `imu_ready` false with `takeoff_time = 1`; at time 5 a state flying
since time 1 passes `check_imu_ready`. -/
theorem C3_imu_stabilization_witness :
    (takeoff connectedState 1 true).1.imu_ready = false ∧
    (takeoff connectedState 1 true).1.takeoff_time = 1 ∧
    (check_imu_ready flyingSince1State 5).1 = true := by
  have h := C3_imu_stabilization connectedState 1 5 rfl rfl rfl
    (by norm_num [connectedState, initState, command_cooldown])
  exact ⟨h.1.2.1, h.1.2.2,
    (h.2.1 flyingSince1State rfl
      (by norm_num [flyingSince1State, connectedState, initState,
        imu_stabilization_delay])).1⟩

/-- Claim C4: whenever `is_flying` is false, `imu_ready` is false — this
invariant is preserved by every controller operation (connect, disconnect,
takeoff, land, movement dispatch, `check_imu_ready`, the RC-mode
operations, the deferred IMU task and the remaining utilities):
`imu_ready` is only ever set to true while flying, and every transition to
the grounded state also clears it. -/
theorem C4_grounded_implies_imu_not_ready (s : DroneState) (hinv : FlightInv s)
    (now t m : ℚ) (linkOk landOk : Bool) (cmd : MoveCmd) (baseMag : ℤ)
    (keys : ActiveKeys) (batV htV ftV : ℤ) (okBat okHt okFt : Bool) :
    FlightInv (connect s now linkOk batV htV ftV okBat okHt okFt).2 ∧
    FlightInv (disconnect s landOk).1 ∧
    FlightInv (takeoff s now linkOk).1 ∧
    FlightInv (land s now linkOk).1 ∧
    FlightInv (execute_movement_command s now cmd baseMag linkOk).2.1 ∧
    FlightInv (check_imu_ready s t).2 ∧
    FlightInv (notify_imu_ready s) ∧
    FlightInv (start_rc_mode s) ∧
    FlightInv (stop_rc_mode s).1 ∧
    FlightInv (update_rc_control s keys linkOk).1 ∧
    FlightInv (flip_forward s now linkOk).2.1 ∧
    FlightInv (emergency_stop s).1 ∧
    FlightInv (clear_command_queue s).1 ∧
    FlightInv (set_speed_multiplier s m) ∧
    FlightInv (update_telemetry s now batV htV ftV okBat okHt okFt) := by
  refine ⟨?_, ?_, ?_, ?_, ?_, ?_, ?_, ?_, ?_, ?_, ?_, ?_, ?_, ?_, ?_⟩
  · have hf := connect_frame s now linkOk batV htV ftV okBat okHt okFt
    exact FlightInv_congr hf.1 hf.2 hinv
  · have hf := disconnect_frame s landOk
    exact FlightInv_congr hf.2.2.1 hf.2.2.2 hinv
  · unfold takeoff
    split_ifs with hfly
    · exact hinv
    · have hf := execute_command_frame s now .takeoffCall linkOk
      rcases hec : execute_command s now .takeoffCall linkOk with ⟨b, s1, calls⟩
      rw [hec] at hf
      cases b
      · exact FlightInv_congr hf.1 hf.2 hinv
      · intro habs
        simp at habs
  · unfold land
    split_ifs with hfly
    · exact hinv
    · have hf := execute_command_frame s now .landCall linkOk
      rcases hec : execute_command s now .landCall linkOk with ⟨b, s1, calls⟩
      rw [hec] at hf
      cases b
      · exact FlightInv_congr hf.1 hf.2 hinv
      · intro _
        rfl
  · unfold execute_movement_command
    split_ifs with hfly
    · exact hinv
    · have hci := check_imu_ready_inv s now hinv
      rcases hc : check_imu_ready s now with ⟨b, s1⟩
      rw [hc] at hci
      cases b
      · rw [execute_rc_movement_state]
        exact hci
      · have hf := execute_command_frame s1 now
          (.discrete cmd (pyInt ((baseMag : ℚ) * s1.speed_multiplier))) linkOk
        exact FlightInv_congr hf.1 hf.2 hci
  · exact check_imu_ready_inv s t hinv
  · unfold notify_imu_ready
    split_ifs with hfly
    · intro habs
      rw [show ({ s with imu_ready := true } : DroneState).is_flying
        = s.is_flying from rfl, hfly] at habs
      cases habs
    · exact hinv
  · unfold start_rc_mode
    split_ifs <;> exact fun hnf => hinv hnf
  · have hf := stop_rc_mode_frame s
    exact FlightInv_congr hf.1 hf.2 hinv
  · have hf := update_rc_control_frame s keys linkOk
    exact FlightInv_congr hf.1 hf.2 hinv
  · unfold flip_forward
    split_ifs
    · exact hinv
    · exact hinv
    · have hf := execute_command_frame s now .flipCall linkOk
      exact FlightInv_congr hf.1 hf.2 hinv
  · unfold emergency_stop
    split_ifs <;> exact hinv
  · unfold clear_command_queue
    split_ifs <;> exact fun hnf => hinv hnf
  · exact fun hnf => hinv hnf
  · have hf := update_telemetry_frame s now batV htV ftV okBat okHt okFt
    exact FlightInv_congr hf.1 hf.2 hinv

/-- Witness for C4: the invariant holds of a fresh connected controller and
is preserved across a concrete takeoff, landing and movement. -/
theorem C4_grounded_implies_imu_not_ready_witness :
    FlightInv (takeoff connectedState 1 true).1 ∧
    FlightInv (land connectedState 1 true).1 ∧
    FlightInv (check_imu_ready connectedState 1).2 := by
  have h := C4_grounded_implies_imu_not_ready connectedState (fun _ => rfl)
    1 1 1 true true .forward 30 keysForwardOnly 0 0 0 true true true
  exact ⟨h.2.2.1, h.2.2.2.1, h.2.2.2.2.2.1⟩

/-- Claim C5: `calculate_rc_values` is a pure function of the held-key set
and the speed multiplier; each held key contributes
`±min(int(50 × speed_multiplier), 100)` independently, so left and right
held together cancel to a zero lateral value; forward only with multiplier
1.0 gives `forward_back = 50`, and with multiplier 3.0 gives
`min(150, 100) = 100`. -/
theorem C5_rc_values_pure_and_symmetric (s : DroneState) (keys : ActiveKeys)
    (ha : keys.k_a = true) (hd : keys.k_d = true) :
    (calculate_rc_values s keys).left_right = 0 ∧
    (∀ s' keys', s.speed_multiplier = s'.speed_multiplier →
      calculate_rc_values s keys' = calculate_rc_values s' keys') ∧
    (calculate_rc_values (set_speed_multiplier initState 1)
      keysForwardOnly).forward_back = 50 ∧
    (calculate_rc_values (set_speed_multiplier initState 3)
      keysForwardOnly).forward_back = 100 := by
  refine ⟨?_, ?_,
    by norm_num [calculate_rc_values, set_speed_multiplier, initState,
      keysForwardOnly, pyInt],
    by norm_num [calculate_rc_values, set_speed_multiplier, initState,
      keysForwardOnly, pyInt]⟩
  · simp [calculate_rc_values, ha, hd]
  · intro s' keys' hmul
    simp [calculate_rc_values, hmul]

/-- Witness for C5 at a concrete input: left and right both held on a fresh
controller cancel laterally. -/
theorem C5_rc_values_pure_and_symmetric_witness :
    (calculate_rc_values initState keysLeftRight).left_right = 0 :=
  (C5_rc_values_pure_and_symmetric initState keysLeftRight rfl rfl).1

/-- Claim C6 (the code at the failing input): on a three-element queue
`clear_command_queue` empties the queue but reports `Cleared 0` — `len` is
read after `clear()` — while an empty queue gets the distinct
`No commands to clear` message. -/
theorem C6_clear_queue_at_failing_input :
    (clear_command_queue queue3State).1.command_queue = [] ∧
    (clear_command_queue queue3State).2 = ClearReport.cleared 0 ∧
    (clear_command_queue initState).2 = ClearReport.nothingToClear := by
  refine ⟨by decide, by decide, by decide⟩

/-- Counterexample to C7 as stated: with RC mode active, a connected link,
a zero stored vector and the forward key held, a failing
`send_rc_control` (`linkOk = false`) still leaves `current_rc_values`
changed, because the store happens before the `try` block. -/
theorem C7_counterexample :
    (update_rc_control rcActiveState keysForwardOnly false).1.current_rc_values ≠
      rcActiveState.current_rc_values := by
  norm_num [update_rc_control, rcActiveState, initState, calculate_rc_values,
    keysForwardOnly, pyInt, RCValues.zero]

/-- Claim C7 (amended): when the guard passes, the computed vector differs
and the send fails, the failure is caught (the operation returns normally)
but `current_rc_values` IS updated to the new vector — the store precedes
the send attempt — and no other field changes; the send was attempted with
exactly the new vector. -/
theorem C7_send_failure_updates_stored_vector (s : DroneState)
    (keys : ActiveKeys) (hrc : s.rc_mode_active = true)
    (ht : s.hasTello = true) (hc : s.connection_status = .CONNECTED)
    (hne : calculate_rc_values s keys ≠ s.current_rc_values) :
    (update_rc_control s keys false).1 =
      { s with current_rc_values := calculate_rc_values s keys } ∧
    (update_rc_control s keys false).2 =
      [LinkCall.rc (calculate_rc_values s keys).left_right
        (calculate_rc_values s keys).forward_back
        (calculate_rc_values s keys).up_down
        (calculate_rc_values s keys).yaw] := by
  unfold update_rc_control
  rw [if_pos ⟨hrc, ht, hc⟩, if_pos hne]
  exact ⟨rfl, rfl⟩

/-- Witness for C7 (amended) at a concrete input. -/
theorem C7_send_failure_updates_stored_vector_witness :
    (update_rc_control rcActiveState keysForwardOnly false).1 =
      { rcActiveState with
          current_rc_values := calculate_rc_values rcActiveState keysForwardOnly } :=
  (C7_send_failure_updates_stored_vector rcActiveState keysForwardOnly
    rfl rfl rfl (by
      norm_num [calculate_rc_values, rcActiveState, initState,
        keysForwardOnly, pyInt, RCValues.zero])).1

/-- Counterexample to C8 as stated: `set_speed_multiplier` accepts -10
without validation, giving `rc_speed = min(int(50 × (-10)), 100) = -500`,
and holding only the left key yields `left_right = -(-500) = 500`, outside
[-100, 100]. -/
theorem C8_range_counterexample :
    (calculate_rc_values (set_speed_multiplier initState (-10))
      keysLeftOnly).left_right = 500 ∧
    ¬ ((-100 ≤ (calculate_rc_values (set_speed_multiplier initState (-10))
          keysLeftOnly).left_right ∧
        (calculate_rc_values (set_speed_multiplier initState (-10))
          keysLeftOnly).left_right ≤ 100)) := by
  constructor <;>
    norm_num [calculate_rc_values, set_speed_multiplier, initState,
      keysLeftOnly, pyInt]

/-- Claim C8 (amended): with a NONNEGATIVE speed multiplier every component
of `calculate_rc_values` lies in [-100, 100]; the cap `min(·, 100)` bounds
only from above, so negative multipliers (accepted without validation)
escape the range — see the counterexample. -/
theorem C8_rc_values_range (s : DroneState) (keys : ActiveKeys)
    (hm : 0 ≤ s.speed_multiplier) :
    (-100 ≤ (calculate_rc_values s keys).left_right ∧
      (calculate_rc_values s keys).left_right ≤ 100) ∧
    (-100 ≤ (calculate_rc_values s keys).forward_back ∧
      (calculate_rc_values s keys).forward_back ≤ 100) ∧
    (-100 ≤ (calculate_rc_values s keys).up_down ∧
      (calculate_rc_values s keys).up_down ≤ 100) ∧
    (-100 ≤ (calculate_rc_values s keys).yaw ∧
      (calculate_rc_values s keys).yaw ≤ 100) := by
  obtain ⟨h0, h100⟩ := rc_speed_bounds hm
  simp only [calculate_rc_values]
  split_ifs <;> omega

/-- Witness for C8 (amended) at a concrete input. -/
theorem C8_rc_values_range_witness :
    -100 ≤ (calculate_rc_values initState keysLeftOnly).left_right ∧
      (calculate_rc_values initState keysLeftOnly).left_right ≤ 100 :=
  (C8_rc_values_range initState keysLeftOnly (by norm_num [initState])).1

/-- Claim C9: `flip_forward` requires `is_flying` and `imu_ready` with no
fallback — when either is false it returns `False`, leaves the state
unchanged and makes no link call; under the same stabilization-window
conditions an ordinary movement command does make a (fallback) link call,
so the flip guard is strictly stricter. -/
theorem C9_flip_requires_imu (s : DroneState) (now : ℚ) (linkOk : Bool)
    (h : s.is_flying = false ∨ s.imu_ready = false) :
    (flip_forward s now linkOk).1 = false ∧
    (flip_forward s now linkOk).2.1 = s ∧
    (flip_forward s now linkOk).2.2 = [] ∧
    (∀ cmd baseMag, s.is_flying = true → s.hasTello = true →
      s.connection_status = .CONNECTED →
      now - s.takeoff_time < imu_stabilization_delay →
      (execute_movement_command s now cmd baseMag linkOk).2.2 ≠ []) := by
  have hmain : (flip_forward s now linkOk).1 = false ∧
      (flip_forward s now linkOk).2.1 = s ∧
      (flip_forward s now linkOk).2.2 = [] := by
    rcases h with h | h
    · simp [flip_forward, h]
    · unfold flip_forward
      split_ifs <;> simp_all
  refine ⟨hmain.1, hmain.2.1, hmain.2.2, ?_⟩
  intro cmd baseMag hf ht hc hlt
  have himu : s.imu_ready = false := by
    rcases h with h' | h'
    · rw [hf] at h'
      cases h'
    · exact h'
  have hcheck : check_imu_ready s now = (false, s) := by
    simp [check_imu_ready, hf, himu, not_le.mpr hlt]
  simp [execute_movement_command, hcheck, execute_rc_movement, hf, ht, hc]

/-- Witness for C9: one second after takeoff (IMU not ready) a flip is
refused with no link call, while a forward movement issues a call. -/
theorem C9_flip_requires_imu_witness :
    (flip_forward flyingFreshState 101 true).1 = false ∧
    (flip_forward flyingFreshState 101 true).2.2 = [] ∧
    (execute_movement_command flyingFreshState 101 .forward 30 true).2.2 ≠ [] := by
  have h := C9_flip_requires_imu flyingFreshState 101 true (Or.inr rfl)
  exact ⟨h.1, h.2.2.1,
    h.2.2.2 .forward 30 rfl rfl rfl
      (by norm_num [flyingFreshState, initState, imu_stabilization_delay])⟩

/-- Claim C10: `disconnect` always ends `DISCONNECTED` with the link
cleared (link errors during teardown are swallowed — the outcome is the
same for `landOk` true or false), but it never touches `is_flying` or
`imu_ready`; the flying flag also survives a subsequent `connect`. -/
theorem C10_disconnect_never_grounds (s : DroneState) (landOk : Bool)
    (now : ℚ) (linkOk : Bool) (batV htV ftV : ℤ) (okBat okHt okFt : Bool) :
    (disconnect s landOk).1.connection_status = .DISCONNECTED ∧
    (disconnect s landOk).1.hasTello = false ∧
    (disconnect s landOk).1.is_flying = s.is_flying ∧
    (disconnect s landOk).1.imu_ready = s.imu_ready ∧
    (connect (disconnect s landOk).1 now linkOk batV htV ftV
      okBat okHt okFt).2.is_flying = s.is_flying ∧
    (connect (disconnect s landOk).1 now linkOk batV htV ftV
      okBat okHt okFt).2.imu_ready = s.imu_ready := by
  have hd := disconnect_frame s landOk
  have hc := connect_frame (disconnect s landOk).1 now linkOk batV htV ftV
    okBat okHt okFt
  exact ⟨hd.1, hd.2.1, hd.2.2.1, hd.2.2.2,
    hc.1.trans hd.2.2.1, hc.2.trans hd.2.2.2⟩
